import Mathlib

/-!
Shallow embedding of the py3xui HTTP client library, together with proofs
about its request/response plumbing and data-model serialization.

The embedding follows the Python sources:
  py3xui/api/api_base.py      (ApiFields, BaseApi: login, _url,
                               _request_with_retry, _post, _get, _check_response)
  py3xui/api/api_client.py    (ClientApi.get_ips)
  py3xui/api/api_inbound.py   (InboundApi.delete)
  py3xui/inbound/bases.py     (JsonModelValidator.validate_json_input)
  py3xui/inbound/inbound.py   (Inbound.to_json)
  py3xui/inbound/settings.py, stream_settings.py, sniffing.py (data models)

Python JSON values are modelled by `PyJson`; the Python value `None` and the
JSON value `null` are identified (both are `PyJson.null`), matching the fact
that `json.loads` parses `null` to `None` and `dict.get` returns `None` for a
missing key.  HTTP exceptions of the `requests` library are modelled by
`RequestError`; the behaviour of `Response.raise_for_status` (raise an
`HTTPError` for status codes 400-599) follows the documented behaviour of the
`requests` library, which is a third-party dependency, not repository code.
-/

/-- Python JSON values (the results of `response.json()` and `json.loads`). -/
inductive PyJson where
  | null
  | bool (b : Bool)
  | int (n : Int)
  | str (s : String)
  | arr (elems : List PyJson)
  | obj (fields : List (String × PyJson))
deriving Repr

/-- Python truthiness (`bool(v)`) of a JSON value: `None`, `False`, `0`, the
empty string, the empty list and the empty dict are falsy. -/
def PyJson.truthy : PyJson → Bool
  | .null => false
  | .bool b => b
  | .int n => n != 0
  | .str s => s != ""
  | .arr [] => false
  | .arr (_ :: _) => true
  | .obj [] => false
  | .obj (_ :: _) => true

mutual

/-- Python `repr` of a JSON value (used by `str` on containers). -/
def PyJson.pyRepr : PyJson → String
  | .null => "None"
  | .bool b => bif b then "True" else "False"
  | .int n => toString n
  | .str s => "\x27" ++ s ++ "\x27"
  | .arr elems => "[" ++ PyJson.reprJoin elems ++ "]"
  | .obj fields => "\x7b" ++ PyJson.reprJoinKV fields ++ "\x7d"

/-- Comma-separated `repr` of list elements. -/
def PyJson.reprJoin : List PyJson → String
  | [] => ""
  | [v] => v.pyRepr
  | v :: rest => v.pyRepr ++ ", " ++ PyJson.reprJoin rest

/-- Comma-separated `repr` of dict entries. -/
def PyJson.reprJoinKV : List (String × PyJson) → String
  | [] => ""
  | [kv] => "\x27" ++ kv.fst ++ "\x27: " ++ kv.snd.pyRepr
  | kv :: rest => "\x27" ++ kv.fst ++ "\x27: " ++ kv.snd.pyRepr ++ ", " ++ PyJson.reprJoinKV rest

end

/-- Python `str` of a JSON value, as used when it is interpolated into an
f-string: a string interpolates to itself, every other value to its `repr`. -/
def PyJson.pyStr : PyJson → String
  | .str s => s
  | v => v.pyRepr

/-- Python `dict.get(key)` on a JSON object: the value stored under `key`, or
`None` when the key is absent (JSON `null` and Python `None` coincide here). -/
def dictGet (fields : List (String × PyJson)) (key : String) : PyJson :=
  match fields.find? (fun kv => kv.fst == key) with
  | some kv => kv.snd
  | none => .null

namespace ApiFields

/-- api_base.py, class ApiFields: fields returned by the XUI API. -/
def SUCCESS : String := "success"

def MSG : String := "msg"

def OBJ : String := "obj"

def CLIENT_STATS : String := "clientStats"

def NO_IP_RECORD : String := "No IP Record"

end ApiFields

/-- An HTTP response of the `requests` library, restricted to what the
repository reads from it: the status code, the parsed JSON body (assumed to be
a JSON object, which is what every endpoint of the panel returns) and the
response cookies. -/
structure Response where
  statusCode : Nat
  body : List (String × PyJson)
  cookies : List (String × String)
deriving Repr

/-- Whether `response.raise_for_status()` raises: the `requests` library
raises an `HTTPError` exactly for status codes 400-599. -/
def raiseForStatusRaises (r : Response) : Bool :=
  400 ≤ r.statusCode && r.statusCode < 600

/-- BaseApi._check_response (api_base.py lines 229-245): reads the `success`
and `msg` fields of the response JSON and raises a ValueError built from the
`msg` field when `success` is missing or falsy.  `some m` models the raised
ValueError with message `m`; `none` models normal return. -/
def checkResponse (responseJson : List (String × PyJson)) : Option String :=
  let status := dictGet responseJson ApiFields.SUCCESS
  let message := dictGet responseJson ApiFields.MSG
  if !status.truthy then
    some ("Response status is not successful, message: " ++ message.pyStr)
  else
    none

/-- Exceptions of the `requests` library that the retry loop distinguishes.
`connectionError` and `timeout` are caught by the first except clause of
BaseApi._request_with_retry; `httpError` (raised by `raise_for_status`) and
`other` are `RequestException`s caught by the second clause. -/
inductive RequestError where
  | connectionError
  | timeout
  | httpError
  | other
deriving Repr, DecidableEq

/-- The outcome of one call of `method(url, ...)` inside the retry loop:
either a response object, or a raised `requests` exception. -/
inductive Attempt where
  | response (r : Response)
  | raises (e : RequestError)
deriving Repr

/-- The overall outcome of a call of BaseApi._request_with_retry:
`returned r` models a normal return, the other constructors model the
exception propagated to the caller. -/
inductive PyOutcome where
  | returned (r : Response)
  | valueError (msg : String)
  | requestError (e : RequestError)
  | nameError (n : String)
  | retryError (msg : String)
deriving Repr

/-- A record of one HTTP request handed to the `requests` method inside
BaseApi._request_with_retry: `method(url, cookies={"session": self.session},
headers=headers, **kwargs)`, with `json=data` for POST requests. -/
structure SentRequest where
  httpMethod : String
  url : String
  cookieSession : Option String
  headers : List (String × String)
  jsonData : Option (List (String × PyJson))
deriving Repr

/-- Observable side effects of a BaseApi._request_with_retry call: the
requests handed to the `requests` library and the durations (in seconds) of
the completed `sleep` calls. -/
structure Trace where
  sent : List SentRequest
  sleeps : List Nat
deriving Repr

/-- The names bound at module scope of py3xui/api/api_base.py.  Its import
statements bind `annotations`, `Any`, `Callable`, `requests` and `Logger`;
the module body binds `logger`, `ApiFields` and `BaseApi`.  In particular the
name `sleep` is never bound (`time.sleep` is not imported). -/
def apiBaseModuleNames : List String :=
  ["annotations", "Any", "Callable", "requests", "Logger", "logger", "ApiFields", "BaseApi"]

/-- Resolution of a global name inside api_base.py: `none` models the Python
`NameError` raised when an unbound name is evaluated. -/
def lookupGlobal (n : String) : Option String :=
  if apiBaseModuleNames.contains n then some n else none

/-- The state of a BaseApi object: `_host`, `_username`, `_password`,
`_max_retries` and `_session`. -/
structure BaseApi where
  host : String
  username : String
  password : String
  maxRetries : Nat
  session : Option String
deriving Repr

/-- Python `host.rstrip("/")`: remove every trailing `/`. -/
def rstripSlash (s : String) : String :=
  ⟨(s.data.reverse.dropWhile (fun c => c == '/')).reverse⟩

/-- BaseApi.__init__ (api_base.py lines 42-47): strips trailing slashes from
the host and initializes `_max_retries` to 3 and `_session` to `None`. -/
def BaseApi.make (host username password : String) : BaseApi :=
  { host := rstripSlash host
    username := username
    password := password
    maxRetries := 3
    session := none }

/-- BaseApi._url (api_base.py lines 135-144): the full URL of an endpoint. -/
def BaseApi.url (api : BaseApi) (endpoint : String) : String :=
  api.host ++ "/" ++ endpoint

/-- The body of the `for retry in range(1, self.max_retries + 1)` loop of
BaseApi._request_with_retry (api_base.py lines 174-194).  `fuel` counts the
loop iterations still available (initially `max_retries`), `retry` is the
1-based attempt number, `skipCheck` is the current value that
`kwargs.pop("skip_check", False)` yields (the passed value on the first
iteration, `False` afterwards, since `pop` removes the key from `kwargs`).
`attempts n` is the behaviour of the `n`-th call of `method`.  On a
connection or timeout error before the last attempt the code evaluates
`sleep(1 * (retry + 1))`; the name `sleep` is resolved through
`lookupGlobal`, and since api_base.py never imports it, this raises a
`NameError`.  When the loop runs out of iterations, the `RetryError` after
the loop is raised. -/
def BaseApi.retryLoop (session : Option String) (httpMethod url : String)
    (headers : List (String × String)) (jsonData : Option (List (String × PyJson)))
    (attempts : Nat → Attempt) (maxRetries : Nat) :
    Nat → Nat → Bool → Trace → Trace × PyOutcome
  | 0, _, _, tr =>
    (tr, .retryError ("Max retries exceeded with no successful response to " ++ url))
  | fuel + 1, retry, skipCheck, tr =>
    let tr := { tr with
      sent := tr.sent ++ [{ httpMethod := httpMethod, url := url,
                            cookieSession := session, headers := headers,
                            jsonData := jsonData }] }
    match attempts retry with
    | .response r =>
      if raiseForStatusRaises r then
        (tr, .requestError .httpError)
      else if skipCheck then
        (tr, .returned r)
      else
        match checkResponse r.body with
        | some msg => (tr, .valueError msg)
        | none => (tr, .returned r)
    | .raises .connectionError =>
      if retry == maxRetries then
        (tr, .requestError .connectionError)
      else
        match lookupGlobal "sleep" with
        | none => (tr, .nameError "sleep")
        | some _ =>
          let tr := { tr with sleeps := tr.sleeps ++ [1 * (retry + 1)] }
          BaseApi.retryLoop session httpMethod url headers jsonData attempts maxRetries
            fuel (retry + 1) false tr
    | .raises .timeout =>
      if retry == maxRetries then
        (tr, .requestError .timeout)
      else
        match lookupGlobal "sleep" with
        | none => (tr, .nameError "sleep")
        | some _ =>
          let tr := { tr with sleeps := tr.sleeps ++ [1 * (retry + 1)] }
          BaseApi.retryLoop session httpMethod url headers jsonData attempts maxRetries
            fuel (retry + 1) false tr
    | .raises .httpError => (tr, .requestError .httpError)
    | .raises .other => (tr, .requestError .other)

/-- BaseApi._request_with_retry (api_base.py lines 146-194), as a function of
the API state, the request parameters, the `skip_check` keyword argument and
the behaviour of the underlying `requests` method on each attempt. -/
def BaseApi.request_with_retry (api : BaseApi) (httpMethod url : String)
    (headers : List (String × String)) (jsonData : Option (List (String × PyJson)))
    (skipCheck : Bool) (attempts : Nat → Attempt) : Trace × PyOutcome :=
  BaseApi.retryLoop api.session httpMethod url headers jsonData attempts api.maxRetries
    api.maxRetries 1 skipCheck { sent := [], sleeps := [] }

/-- BaseApi._post (api_base.py lines 196-212): a POST request with retry
logic, passing the data as the `json` keyword argument. -/
def BaseApi.post (api : BaseApi) (url : String) (headers : List (String × String))
    (data : List (String × PyJson)) (skipCheck : Bool) (attempts : Nat → Attempt) :
    Trace × PyOutcome :=
  api.request_with_retry "post" url headers (some data) skipCheck attempts

/-- BaseApi._get (api_base.py lines 214-227): a GET request with retry logic. -/
def BaseApi.get (api : BaseApi) (url : String) (headers : List (String × String))
    (skipCheck : Bool) (attempts : Nat → Attempt) : Trace × PyOutcome :=
  api.request_with_retry "get" url headers none skipCheck attempts

/-- Python `response.cookies.get(name)`: the value of the named cookie, or
`None` when the response carries no such cookie. -/
def cookiesGet (cookies : List (String × String)) (name : String) : Option String :=
  (cookies.find? (fun kv => kv.fst == name)).map (fun kv => kv.snd)

/-- The outcome of BaseApi.login: a normal return with the updated API state,
the ValueError raised when no usable session cookie is found (the API state is
unchanged), or an exception propagated from `_post`. -/
inductive LoginOutcome where
  | success (api : BaseApi)
  | loginValueError (msg : String) (api : BaseApi)
  | requestFailed (o : PyOutcome) (api : BaseApi)
deriving Repr

/-- BaseApi.login (api_base.py lines 112-133): posts the stored username and
password to the `login` endpoint, reads the `session` cookie of the response
and stores it; `if not cookie` (the cookie is absent or its value is the
empty string) a ValueError is raised and the session attribute is untouched. -/
def BaseApi.login (api : BaseApi) (attempts : Nat → Attempt) : Trace × LoginOutcome :=
  let url := api.url "login"
  let data := [("username", PyJson.str api.username), ("password", PyJson.str api.password)]
  let result := api.post url [] data false attempts
  match result.snd with
  | .returned response =>
    match cookiesGet response.cookies "session" with
    | none =>
      (result.fst, .loginValueError "No session cookie found, something wrong with the login..." api)
    | some c =>
      if c == "" then
        (result.fst, .loginValueError "No session cookie found, something wrong with the login..." api)
      else
        (result.fst, .success { api with session := some c })
  | o => (result.fst, .requestFailed o api)

/-- Python equality of a JSON value with a `str`: only a string with the same
contents is equal, every value of another type compares unequal. -/
def PyJson.eqString (v : PyJson) (s : String) : Bool :=
  match v with
  | .str t => t == s
  | _ => false

/-- ClientApi.get_ips (api_client.py lines 45-72), the mapping from the JSON
body of the response to the returned value:
`ips_json = response.json().get(ApiFields.OBJ)` followed by
`return ips_json if ips_json != ApiFields.NO_IP_RECORD else None`. -/
def ClientApi.get_ips_value (body : List (String × PyJson)) : PyJson :=
  let ips_json := dictGet body ApiFields.OBJ
  if ips_json.eqString ApiFields.NO_IP_RECORD then PyJson.null else ips_json

/-- A Python value used as a URL: either a string or a tuple of strings (a
trailing comma after an expression builds a 1-tuple). -/
inductive UrlValue where
  | str (s : String)
  | tuple (elems : List String)
deriving Repr

/-- The state of the InboundApi class of api_inbound.py (lines 35-63): its
__init__ stores the host verbatim, without stripping a trailing slash, and it
does not inherit from BaseApi. -/
structure InboundApi where
  host : String
  username : String
  password : String
deriving Repr

/-- InboundApi.__init__ (api_inbound.py lines 39-51). -/
def InboundApi.make (host username password : String) : InboundApi :=
  { host := host, username := username, password := password }

/-- The endpoint value built by InboundApi.delete (api_inbound.py line 103):
`endpoint = f'{self.host}/panel/api/inbounds/del/{inbound_id}',` - the
trailing comma makes `endpoint` a 1-tuple holding the formatted string, not
the string itself; that tuple is what `self.session.post(endpoint)` gets. -/
def InboundApi.delete_endpoint (api : InboundApi) (inbound_id : Int) : UrlValue :=
  UrlValue.tuple [api.host ++ "/panel/api/inbounds/del/" ++ toString inbound_id]

/-- A Python value reaching pydantic model validation in bases.py: a string,
a dict, or any other value (kept opaque as a JSON value). -/
inductive PyVal where
  | str (s : String)
  | dict (fields : List (String × PyJson))
  | scalar (v : PyJson)
deriving Repr

/-- The Python value that `json.loads` yields, as a `PyVal`. -/
def pyValOfJson : PyJson → PyVal
  | .obj fields => .dict fields
  | .str s => .str s
  | v => .scalar v

/-- JsonModelValidator.validate_json_input (bases.py lines 9-25): a string
input is handed to `json.loads` and the parse result returned; on a
`json.JSONDecodeError` the except clause falls through and the string is
returned unchanged; every non-string input is returned unchanged.  `loads`
stands for `json.loads` of the Python standard library (not repository code):
`some v` is a successful parse, `none` the `JSONDecodeError` case. -/
def validate_json_input (loads : String → Option PyJson) : PyVal → PyVal
  | .str s =>
    match loads s with
    | some v => pyValOfJson v
    | none => .str s
  | v => v

/-- The names bound at module scope of py3xui/inbound/bases.py: the imported
names `json`, `BaseModel` and `model_validator`, and the class
`JsonModelValidator` it defines.  No name `JsonStringModel` is bound. -/
def basesModuleNames : List String :=
  ["json", "BaseModel", "model_validator", "JsonModelValidator"]

/-- The base-class name `JsonStringModel` that settings.py line 6 and
stream_settings.py line 5 expect to find in py3xui.inbound.bases. -/
def jsonStringModelImportName : String := "JsonStringModel"

mutual

/-- JSON serialization of a value, in the compact form pydantic
`model_dump_json` produces (separators `,` and `:`; string escaping of
special characters is not modelled, the claims do not depend on it). -/
def PyJson.dumpJson : PyJson → String
  | .null => "null"
  | .bool b => bif b then "true" else "false"
  | .int n => toString n
  | .str s => "\"" ++ s ++ "\""
  | .arr elems => "[" ++ PyJson.dumpJoin elems ++ "]"
  | .obj fields => "\x7b" ++ PyJson.dumpJoinKV fields ++ "\x7d"

/-- Comma-separated serialization of array elements. -/
def PyJson.dumpJoin : List PyJson → String
  | [] => ""
  | [v] => v.dumpJson
  | v :: rest => v.dumpJson ++ "," ++ PyJson.dumpJoin rest

/-- Comma-separated serialization of object entries. -/
def PyJson.dumpJoinKV : List (String × PyJson) → String
  | [] => ""
  | [kv] => "\"" ++ kv.fst ++ "\":" ++ kv.snd.dumpJson
  | kv :: rest => "\"" ++ kv.fst ++ "\":" ++ kv.snd.dumpJson ++ "," ++ PyJson.dumpJoinKV rest

end

/-- The Settings model (settings.py lines 17-28): fields `clients`,
`decryption` and `fallbacks`, none with an alias.  The Client model lives in
py3xui/client/client.py, which is not among the sources; a serialized client
is therefore kept opaque as a JSON value. -/
structure Settings where
  clients : List PyJson
  decryption : String
  fallbacks : List PyJson
deriving Repr

/-- Pydantic `model_dump(by_alias=True)` of Settings. -/
def Settings.model_dump (s : Settings) : PyJson :=
  .obj [("clients", .arr s.clients),
        ("decryption", .str s.decryption),
        ("fallbacks", .arr s.fallbacks)]

/-- Pydantic `model_dump_json(by_alias=True)` of Settings. -/
def Settings.model_dump_json (s : Settings) : String :=
  s.model_dump.dumpJson

/-- The StreamSettings model (stream_settings.py lines 20-43): fields
`security` and `network` without alias, and `tcp_settings`, `external_proxy`,
`reality_settings`, `xtls_settings`, `tls_settings` with the aliases of
StreamSettingsFields. -/
structure StreamSettings where
  security : String
  network : String
  tcp_settings : List (String × PyJson)
  external_proxy : List PyJson
  reality_settings : List (String × PyJson)
  xtls_settings : List (String × PyJson)
  tls_settings : List (String × PyJson)
deriving Repr

/-- Pydantic `model_dump(by_alias=True)` of StreamSettings. -/
def StreamSettings.model_dump (ss : StreamSettings) : PyJson :=
  .obj [("security", .str ss.security),
        ("network", .str ss.network),
        ("tcpSettings", .obj ss.tcp_settings),
        ("externalProxy", .arr ss.external_proxy),
        ("realitySettings", .obj ss.reality_settings),
        ("xtlsSettings", .obj ss.xtls_settings),
        ("tlsSettings", .obj ss.tls_settings)]

/-- Pydantic `model_dump_json(by_alias=True)` of StreamSettings. -/
def StreamSettings.model_dump_json (ss : StreamSettings) : String :=
  ss.model_dump.dumpJson

/-- The Sniffing class (sniffing.py lines 16-51): a plain Python class, not a
pydantic model, with the instance attributes `enabled`, `dest_override`,
`metadata_only` and `route_only` set by its __init__. -/
structure Sniffing where
  enabled : Bool
  dest_override : List String
  metadata_only : Bool
  route_only : Bool
deriving Repr

/-- Sniffing.to_json (sniffing.py lines 40-51): the only serialization method
the class defines, keyed by the SniffingFields aliases. -/
def Sniffing.to_json (sn : Sniffing) : List (String × PyJson) :=
  [("enabled", .bool sn.enabled),
   ("destOverride", .arr (sn.dest_override.map PyJson.str)),
   ("metadataOnly", .bool sn.metadata_only),
   ("routeOnly", .bool sn.route_only)]

/-- The method names the Sniffing class of sniffing.py defines: only
__init__ and to_json.  In particular there is no model_dump_json. -/
def sniffingClassAttrs : List String := ["__init__", "to_json"]

/-- Python attribute lookup of a method on a Sniffing object: `none` models
the AttributeError raised when the class defines no such attribute. -/
def Sniffing.getMethod (name : String) : Option String :=
  if sniffingClassAttrs.contains name then some name else none

/-- The alias-keyed JSON-string dump that `model_dump_json(by_alias=True)`
would yield if Sniffing were the pydantic model that inbound.py assumes (its
keys are the SniffingFields aliases, the same keys Sniffing.to_json uses).
Only the branch of Inbound.to_json that the failed attribute lookup makes
unreachable refers to it. -/
def Sniffing.aliasDumpJson (sn : Sniffing) : String :=
  (PyJson.obj sn.to_json).dumpJson

namespace InboundFields

/-- inbound.py, class InboundFields: the field keys of the XUI API. -/
def ENABLE : String := "enable"

def PORT : String := "port"

def PROTOCOL : String := "protocol"

def SETTINGS : String := "settings"

def STREAM_SETTINGS : String := "streamSettings"

def SNIFFING : String := "sniffing"

def ID : String := "id"

def UP : String := "up"

def DOWN : String := "down"

def TOTAL : String := "total"

def REMARK : String := "remark"

def EXPIRY_TIME : String := "expiryTime"

def CLIENT_STATS : String := "clientStats"

def LISTEN : String := "listen"

def TAG : String := "tag"

end InboundFields

/-- The Inbound model (inbound.py lines 45-88), with the fields in their
declaration order; `stream_settings`, `expiry_time` and `client_stats` carry
the aliases `streamSettings`, `expiryTime` and `clientStats`. -/
structure Inbound where
  enable : Bool
  port : Int
  protocol : String
  settings : Settings
  stream_settings : StreamSettings
  sniffing : Sniffing
  listen : String
  remark : String
  id : Int
  up : Int
  down : Int
  total : Int
  expiry_time : Int
  client_stats : List PyJson
  tag : String
deriving Repr

/-- Pydantic `model_dump(by_alias=True)` of Inbound: every field under its
alias, in declaration order. -/
def Inbound.model_dump (i : Inbound) : List (String × PyJson) :=
  [(InboundFields.ENABLE, .bool i.enable),
   (InboundFields.PORT, .int i.port),
   (InboundFields.PROTOCOL, .str i.protocol),
   (InboundFields.SETTINGS, i.settings.model_dump),
   (InboundFields.STREAM_SETTINGS, i.stream_settings.model_dump),
   (InboundFields.SNIFFING, .obj i.sniffing.to_json),
   (InboundFields.LISTEN, .str i.listen),
   (InboundFields.REMARK, .str i.remark),
   (InboundFields.ID, .int i.id),
   (InboundFields.UP, .int i.up),
   (InboundFields.DOWN, .int i.down),
   (InboundFields.TOTAL, .int i.total),
   (InboundFields.EXPIRY_TIME, .int i.expiry_time),
   (InboundFields.CLIENT_STATS, .arr i.client_stats),
   (InboundFields.TAG, .str i.tag)]

/-- The `include` set of Inbound.to_json (inbound.py lines 96-103). -/
def inboundIncludeKeys : List String :=
  [InboundFields.REMARK, InboundFields.ENABLE, InboundFields.LISTEN,
   InboundFields.PORT, InboundFields.PROTOCOL, InboundFields.EXPIRY_TIME]

/-- Python `dict.update`: entries of `u` overwrite entries of `d` with the
same key in place; entries with new keys are appended in order. -/
def dictUpdate (d u : List (String × PyJson)) : List (String × PyJson) :=
  (d.map (fun kv =>
    match u.find? (fun kv2 => kv2.fst == kv.fst) with
    | some kv2 => (kv.fst, kv2.snd)
    | none => kv))
  ++ u.filter (fun kv2 => !(d.any (fun kv => kv.fst == kv2.fst)))

/-- The outcome of Inbound.to_json: either the returned dict, or a raised
exception. -/
inductive ToJsonResult where
  | dict (entries : List (String × PyJson))
  | attributeError (msg : String)
deriving Repr

/-- Inbound.to_json (inbound.py lines 90-117): dump every field by alias,
keep only the `include` keys, then update with the `settings`,
`streamSettings` and `sniffing` keys holding the JSON-string dumps of the
nested models.  The dict handed to `result.update` evaluates its entries in
order; the third one, `self.sniffing.model_dump_json(by_alias=True)` on line
113, first looks the method up on the Sniffing object, and since sniffing.py
defines Sniffing as a plain class with only __init__ and to_json, the lookup
raises an AttributeError, so the update never happens and no dict is
returned. -/
def Inbound.to_json (i : Inbound) : ToJsonResult :=
  let result := i.model_dump.filter (fun kv => inboundIncludeKeys.contains kv.fst)
  let settingsEntry := (InboundFields.SETTINGS, PyJson.str i.settings.model_dump_json)
  let streamEntry :=
    (InboundFields.STREAM_SETTINGS, PyJson.str i.stream_settings.model_dump_json)
  match Sniffing.getMethod "model_dump_json" with
  | none => .attributeError "Sniffing object has no attribute model_dump_json"
  | some _ =>
    .dict (dictUpdate result
      [settingsEntry, streamEntry,
       (InboundFields.SNIFFING, PyJson.str i.sniffing.aliasDumpJson)])

/-- The request record one iteration of the retry loop hands to the requests
library (the argument list of `method(url, cookies={"session": self.session},
headers=headers, **kwargs)`). -/
def sentRecord (httpMethod url : String) (session : Option String)
    (headers : List (String × String)) (jsonData : Option (List (String × PyJson))) :
    SentRequest :=
  { httpMethod := httpMethod, url := url, cookieSession := session,
    headers := headers, jsonData := jsonData }

/-- A response whose session cookie is present but empty, for claim C4: the
login endpoint answers 200 with a truthy success field and the cookie
`session=`. -/
def c4EmptyCookieResp : Response :=
  { statusCode := 200, body := [("success", PyJson.bool true)], cookies := [("session", "")] }

/-- C1: for every call to BaseApi._request_with_retry without skip_check set,
if the HTTP-level request succeeds (the first attempt yields a response that
passes raise_for_status), the call raises ValueError exactly when the JSON
body has a missing or falsy `success` field, with the message built from the
body `msg` field; when `success` is truthy the response is returned
unchanged. -/
theorem c1_check_response (api : BaseApi) (httpMethod url : String)
    (headers : List (String × String)) (jsonData : Option (List (String × PyJson)))
    (attempts : Nat → Attempt) (r : Response)
    (hatt : attempts 1 = Attempt.response r)
    (hok : raiseForStatusRaises r = false)
    (hmr : 1 ≤ api.maxRetries) :
    ((dictGet r.body ApiFields.SUCCESS).truthy = false →
      (api.request_with_retry httpMethod url headers jsonData false attempts).snd =
        PyOutcome.valueError
          ("Response status is not successful, message: " ++ (dictGet r.body ApiFields.MSG).pyStr))
    ∧ ((dictGet r.body ApiFields.SUCCESS).truthy = true →
      (api.request_with_retry httpMethod url headers jsonData false attempts).snd =
        PyOutcome.returned r) := by
  obtain ⟨n, hn⟩ : ∃ n, api.maxRetries = n + 1 := ⟨api.maxRetries - 1, by omega⟩
  constructor
  · intro hfalse
    simp [BaseApi.request_with_retry, hn, BaseApi.retryLoop, hatt, hok, checkResponse, hfalse]
  · intro htrue
    simp [BaseApi.request_with_retry, hn, BaseApi.retryLoop, hatt, hok, checkResponse, htrue]

/-- Witness for C1 at a concrete falsy-success response and a concrete
truthy-success response. -/
theorem c1_check_response_witness :
    ((BaseApi.make "http://example.com" "u" "p").request_with_retry "get"
        "http://example.com/a" [] none false
        (fun _ => Attempt.response
          { statusCode := 200,
            body := [("success", PyJson.bool false), ("msg", PyJson.str "failure cause")],
            cookies := [] })).snd =
      PyOutcome.valueError "Response status is not successful, message: failure cause"
    ∧ ((BaseApi.make "http://example.com" "u" "p").request_with_retry "get"
        "http://example.com/a" [] none false
        (fun _ => Attempt.response
          { statusCode := 200, body := [("success", PyJson.bool true)], cookies := [] })).snd =
      PyOutcome.returned
        { statusCode := 200, body := [("success", PyJson.bool true)], cookies := [] } := by
  constructor
  · exact (c1_check_response (BaseApi.make "http://example.com" "u" "p") "get"
      "http://example.com/a" [] none
      (fun _ => Attempt.response
        { statusCode := 200,
          body := [("success", PyJson.bool false), ("msg", PyJson.str "failure cause")],
          cookies := [] })
      { statusCode := 200,
        body := [("success", PyJson.bool false), ("msg", PyJson.str "failure cause")],
        cookies := [] }
      rfl rfl (by decide)).1 rfl
  · exact (c1_check_response (BaseApi.make "http://example.com" "u" "p") "get"
      "http://example.com/a" [] none
      (fun _ => Attempt.response
        { statusCode := 200, body := [("success", PyJson.bool true)], cookies := [] })
      { statusCode := 200, body := [("success", PyJson.bool true)], cookies := [] }
      rfl rfl (by decide)).2 rfl

/-- C2: the retry loop of api_base.py never reaches a second attempt.  With
the default max_retries = 3, a first attempt that raises a connection error
makes the except clause evaluate `sleep(1 * (retry + 1))`, but the name
`sleep` is not bound at module scope (api_base.py imports only `annotations`,
`typing` names, `requests` and `Logger`), so a NameError propagates after a
single sent request instead of a retry; a non-connection, non-timeout request
exception still propagates immediately. -/
theorem c2_retry_missing_sleep :
    lookupGlobal "sleep" = none
    ∧ ((BaseApi.make "http://example.com" "u" "p").request_with_retry "get"
        "http://example.com/panel/api/inbounds/list" [] none false
        (fun _ => Attempt.raises RequestError.connectionError)).snd =
      PyOutcome.nameError "sleep"
    ∧ ((BaseApi.make "http://example.com" "u" "p").request_with_retry "get"
        "http://example.com/panel/api/inbounds/list" [] none false
        (fun _ => Attempt.raises RequestError.connectionError)).fst.sent.length = 1
    ∧ ((BaseApi.make "http://example.com" "u" "p").request_with_retry "get"
        "http://example.com/panel/api/inbounds/list" [] none false
        (fun _ => Attempt.raises RequestError.other)).snd =
      PyOutcome.requestError RequestError.other := by
  exact ⟨rfl, rfl, rfl, rfl⟩

/-- C3: no linear backoff wait ever happens.  With max_retries = 3 and a
first attempt that raises a timeout, the code reaches the backoff line
`sleep(1 * (retry + 1))`, but `sleep` is an unbound name in api_base.py, so
the call raises NameError: the list of completed sleeps stays empty and no
second attempt is performed. -/
theorem c3_backoff_missing_sleep :
    lookupGlobal "sleep" = none
    ∧ ((BaseApi.make "http://example.com" "u" "p").request_with_retry "post"
        "http://example.com/login" [] none false
        (fun _ => Attempt.raises RequestError.timeout)).fst.sleeps = []
    ∧ ((BaseApi.make "http://example.com" "u" "p").request_with_retry "post"
        "http://example.com/login" [] none false
        (fun _ => Attempt.raises RequestError.timeout)).snd =
      PyOutcome.nameError "sleep" := by
  exact ⟨rfl, rfl, rfl⟩

/-- Counterexample to C4 as stated: the response carries a `session` cookie
(value empty string), yet login does not capture it into the session
attribute - `if not cookie` treats the empty value as missing, raises the
ValueError and leaves the state unchanged. -/
theorem c4_login_counterexample :
    (BaseApi.login (BaseApi.make "http://example.com" "admin" "secret")
        (fun _ => Attempt.response c4EmptyCookieResp)).snd ≠
      LoginOutcome.success
        { BaseApi.make "http://example.com" "admin" "secret" with session := some "" }
    ∧ (BaseApi.login (BaseApi.make "http://example.com" "admin" "secret")
        (fun _ => Attempt.response c4EmptyCookieResp)).snd =
      LoginOutcome.loginValueError "No session cookie found, something wrong with the login..."
        (BaseApi.make "http://example.com" "admin" "secret") := by
  have he : (BaseApi.login (BaseApi.make "http://example.com" "admin" "secret")
      (fun _ => Attempt.response c4EmptyCookieResp)).snd =
      LoginOutcome.loginValueError "No session cookie found, something wrong with the login..."
        (BaseApi.make "http://example.com" "admin" "secret") := rfl
  refine ⟨?_, he⟩
  intro h
  rw [he] at h
  exact LoginOutcome.noConfusion h

/-- C4 as amended: login posts the stored username and password to the login
endpoint; when the response carries a `session` cookie with a non-empty
value, that value is captured into the session attribute; when the cookie is
absent or its value is the empty string, login raises ValueError and the
session attribute is left unchanged. -/
theorem c4_login_amended (api : BaseApi) (attempts : Nat → Attempt) (r : Response)
    (hatt : attempts 1 = Attempt.response r)
    (hok : raiseForStatusRaises r = false)
    (hck : checkResponse r.body = none)
    (hmr : 1 ≤ api.maxRetries) :
    (BaseApi.login api attempts).fst.sent =
      [{ httpMethod := "post", url := api.host ++ "/" ++ "login",
         cookieSession := api.session, headers := [],
         jsonData := some [("username", PyJson.str api.username),
                           ("password", PyJson.str api.password)] }]
    ∧ (∀ c, cookiesGet r.cookies "session" = some c → c ≠ "" →
        (BaseApi.login api attempts).snd = LoginOutcome.success { api with session := some c })
    ∧ (cookiesGet r.cookies "session" = none ∨ cookiesGet r.cookies "session" = some "" →
        (BaseApi.login api attempts).snd =
          LoginOutcome.loginValueError
            "No session cookie found, something wrong with the login..." api) := by
  obtain ⟨n, hn⟩ : ∃ n, api.maxRetries = n + 1 := ⟨api.maxRetries - 1, by omega⟩
  refine ⟨?_, ?_, ?_⟩
  · rcases hcg : cookiesGet r.cookies "session" with _ | c
    · simp [BaseApi.login, BaseApi.post, BaseApi.url, BaseApi.request_with_retry, hn,
        BaseApi.retryLoop, hatt, hok, hck, hcg]
    · by_cases hce : c = "" <;>
        simp [BaseApi.login, BaseApi.post, BaseApi.url, BaseApi.request_with_retry, hn,
          BaseApi.retryLoop, hatt, hok, hck, hcg, hce]
  · intro c hc hcne
    simp [BaseApi.login, BaseApi.post, BaseApi.url, BaseApi.request_with_retry, hn,
      BaseApi.retryLoop, hatt, hok, hck, hc, hcne]
  · rintro (hc | hc) <;>
      simp [BaseApi.login, BaseApi.post, BaseApi.url, BaseApi.request_with_retry, hn,
        BaseApi.retryLoop, hatt, hok, hck, hc]

/-- Witness for C4 (amended) at a concrete login exchange with a non-empty
session cookie. -/
theorem c4_login_amended_witness :
    (BaseApi.login (BaseApi.make "http://example.com" "admin" "secret")
        (fun _ => Attempt.response
          { statusCode := 200, body := [("success", PyJson.bool true)],
            cookies := [("session", "abc")] })).snd =
      LoginOutcome.success
        { host := "http://example.com", username := "admin", password := "secret",
          maxRetries := 3, session := some "abc" } := by
  have h := (c4_login_amended (BaseApi.make "http://example.com" "admin" "secret")
    (fun _ => Attempt.response
      { statusCode := 200, body := [("success", PyJson.bool true)],
        cookies := [("session", "abc")] })
    { statusCode := 200, body := [("success", PyJson.bool true)],
      cookies := [("session", "abc")] }
    rfl rfl rfl (by decide)).2.1 "abc" rfl (by decide)
  exact h

/-- C5: with skip_check=True, a response that passes the HTTP status check is
returned immediately without the JSON success-field check, so no ValueError
about an unsuccessful response status is ever raised from such a call. -/
theorem c5_skip_check (api : BaseApi) (httpMethod url : String)
    (headers : List (String × String)) (jsonData : Option (List (String × PyJson)))
    (attempts : Nat → Attempt) (r : Response)
    (hatt : attempts 1 = Attempt.response r)
    (hok : raiseForStatusRaises r = false)
    (hmr : 1 ≤ api.maxRetries) :
    (api.request_with_retry httpMethod url headers jsonData true attempts).snd =
      PyOutcome.returned r
    ∧ ∀ msg, (api.request_with_retry httpMethod url headers jsonData true attempts).snd ≠
        PyOutcome.valueError msg := by
  obtain ⟨n, hn⟩ : ∃ n, api.maxRetries = n + 1 := ⟨api.maxRetries - 1, by omega⟩
  have he : (api.request_with_retry httpMethod url headers jsonData true attempts).snd =
      PyOutcome.returned r := by
    simp [BaseApi.request_with_retry, hn, BaseApi.retryLoop, hatt, hok]
  refine ⟨he, fun msg h => ?_⟩
  rw [he] at h
  exact PyOutcome.noConfusion h

/-- Witness for C5 at a concrete response whose success field is falsy: with
skip_check the response is returned and no ValueError is raised. -/
theorem c5_skip_check_witness :
    ((BaseApi.make "http://example.com" "u" "p").request_with_retry "post"
        "http://example.com/server/restartXrayService" [] none true
        (fun _ => Attempt.response
          { statusCode := 200, body := [("success", PyJson.bool false)], cookies := [] })).snd =
      PyOutcome.returned
        { statusCode := 200, body := [("success", PyJson.bool false)], cookies := [] } :=
  (c5_skip_check (BaseApi.make "http://example.com" "u" "p") "post"
    "http://example.com/server/restartXrayService" [] none
    (fun _ => Attempt.response
      { statusCode := 200, body := [("success", PyJson.bool false)], cookies := [] })
    { statusCode := 200, body := [("success", PyJson.bool false)], cookies := [] }
    rfl rfl (by decide)).1

/-- C6: InboundApi.delete (api_inbound.py) does not post to the plain string
host + "/panel/api/inbounds/del/" + inbound_id.  The trailing comma on line
103 makes the endpoint a 1-tuple holding that string; moreover this class
stores the host verbatim, so a trailing slash survives construction, whereas
BaseApi strips it and BaseApi._url yields the plain concatenated string. -/
theorem c6_delete_endpoint_is_tuple :
    InboundApi.delete_endpoint (InboundApi.make "http://example.com" "u" "p") 1 =
      UrlValue.tuple ["http://example.com/panel/api/inbounds/del/1"]
    ∧ (∀ s, InboundApi.delete_endpoint (InboundApi.make "http://example.com" "u" "p") 1 ≠
        UrlValue.str s)
    ∧ (InboundApi.make "http://example.com/" "u" "p").host = "http://example.com/"
    ∧ BaseApi.url (BaseApi.make "http://example.com/" "u" "p") "panel/api/inbounds/del/1" =
      "http://example.com/panel/api/inbounds/del/1" := by
  refine ⟨rfl, fun s h => ?_, rfl, by decide⟩
  exact UrlValue.noConfusion h

/-- Helper for C7: every request record appended by the retry loop carries
the session value as the `session` cookie, whatever the trace held before. -/
theorem retryLoop_cookieSession (session : Option String) (httpMethod url : String)
    (headers : List (String × String)) (jsonData : Option (List (String × PyJson)))
    (attempts : Nat → Attempt) (maxRetries : Nat) :
    ∀ fuel retry skipCheck tr,
      (∀ req ∈ tr.sent, req.cookieSession = session) →
      ∀ req ∈ (BaseApi.retryLoop session httpMethod url headers jsonData attempts maxRetries
          fuel retry skipCheck tr).fst.sent,
        req.cookieSession = session := by
  intro fuel
  induction fuel with
  | zero =>
    intro retry skipCheck tr h req hreq
    exact h req hreq
  | succ n ih =>
    intro retry skipCheck tr h req hreq
    have h2 : ∀ req2 : SentRequest,
        req2 ∈ tr.sent ++ [sentRecord httpMethod url session headers jsonData] →
        req2.cookieSession = session := by
      intro req2 hr2
      rcases List.mem_append.mp hr2 with hl | hr
      · exact h req2 hl
      · rcases List.mem_singleton.mp hr with rfl
        rfl
    rw [BaseApi.retryLoop] at hreq
    rcases hat : attempts retry with r | e
    · rw [hat] at hreq
      by_cases hrs : raiseForStatusRaises r = true
      · simp only [hrs, if_true] at hreq
        exact h2 req hreq
      · rw [Bool.not_eq_true] at hrs
        simp only [hrs] at hreq
        by_cases hsc : skipCheck = true
        · simp only [hsc, if_true] at hreq
          exact h2 req hreq
        · rw [Bool.not_eq_true] at hsc
          simp only [hsc] at hreq
          rcases hcr : checkResponse r.body with _ | msg <;> simp only [hcr] at hreq <;>
            exact h2 req hreq
    · rcases e <;> rw [hat] at hreq
      · by_cases hlast : (retry == maxRetries) = true
        · simp only [hlast, if_true] at hreq
          exact h2 req hreq
        · rw [Bool.not_eq_true] at hlast
          simp only [hlast, Bool.false_eq_true, if_false] at hreq
          have hs : lookupGlobal "sleep" = none := rfl
          rw [hs] at hreq
          exact h2 req hreq
      · by_cases hlast : (retry == maxRetries) = true
        · simp only [hlast, if_true] at hreq
          exact h2 req hreq
        · rw [Bool.not_eq_true] at hlast
          simp only [hlast, Bool.false_eq_true, if_false] at hreq
          have hs : lookupGlobal "sleep" = none := rfl
          rw [hs] at hreq
          exact h2 req hreq
      · exact h2 req hreq
      · exact h2 req hreq

/-- C7: every HTTP request sent through BaseApi._request_with_retry (and so
through _post and _get) hands the stored session value to the requests
library as the cookie named `session`. -/
theorem c7_session_cookie (api : BaseApi) (httpMethod url : String)
    (headers : List (String × String)) (jsonData : Option (List (String × PyJson)))
    (skipCheck : Bool) (attempts : Nat → Attempt) :
    ∀ req ∈ (api.request_with_retry httpMethod url headers jsonData skipCheck attempts).fst.sent,
      req.cookieSession = api.session := by
  intro req hreq
  exact retryLoop_cookieSession api.session httpMethod url headers jsonData attempts
    api.maxRetries api.maxRetries 1 skipCheck { sent := [], sleeps := [] }
    (by intro r hr; cases hr) req hreq

/-- Witness for C7: the one request sent by a concrete call with a stored
session carries that session as its cookie. -/
theorem c7_session_cookie_witness :
    ({ httpMethod := "get", url := "http://example.com/x", cookieSession := some "sess",
       headers := [], jsonData := none } : SentRequest).cookieSession = some "sess" :=
  c7_session_cookie
    { host := "http://example.com", username := "u", password := "p",
      maxRetries := 3, session := some "sess" }
    "get" "http://example.com/x" [] none false (fun _ => Attempt.raises RequestError.other)
    { httpMethod := "get", url := "http://example.com/x", cookieSession := some "sess",
      headers := [], jsonData := none }
    (List.Mem.head _)

/-- C8: the import of the JSON-string base model is broken, yet the validator
itself behaves as described.  bases.py binds no name `JsonStringModel` (its
validator class is called `JsonModelValidator`), so the import in settings.py
and stream_settings.py cannot succeed; the validator, for every parse
function standing for json.loads, decodes a string input into the parsed
dictionary, passes a string that fails to parse through unchanged, and leaves
non-string inputs untouched. -/
theorem c8_json_string_model (loads : String → Option PyJson) :
    basesModuleNames.contains jsonStringModelImportName = false
    ∧ (∀ s fields, loads s = some (PyJson.obj fields) →
        validate_json_input loads (PyVal.str s) = PyVal.dict fields)
    ∧ (∀ s, loads s = none → validate_json_input loads (PyVal.str s) = PyVal.str s)
    ∧ (∀ fields, validate_json_input loads (PyVal.dict fields) = PyVal.dict fields) := by
  refine ⟨rfl, ?_, ?_, ?_⟩
  · intro s fields hp
    simp [validate_json_input, hp, pyValOfJson]
  · intro s hp
    simp [validate_json_input, hp]
  · intro fields
    rfl

/-- Witness for C8 at a concrete parse function: the string form of an empty
JSON object is decoded to the empty dict, and a non-JSON string is passed
through unchanged. -/
theorem c8_json_string_model_witness :
    validate_json_input (fun s => if s = "\x7b\x7d" then some (PyJson.obj []) else none)
      (PyVal.str "\x7b\x7d") = PyVal.dict []
    ∧ validate_json_input (fun s => if s = "\x7b\x7d" then some (PyJson.obj []) else none)
      (PyVal.str "bad json") = PyVal.str "bad json" :=
  ⟨(c8_json_string_model
      (fun s => if s = "\x7b\x7d" then some (PyJson.obj []) else none)).2.1
      "\x7b\x7d" [] (by simp),
   (c8_json_string_model
      (fun s => if s = "\x7b\x7d" then some (PyJson.obj []) else none)).2.2.1
      "bad json" (by simp)⟩

/-- C9: ClientApi.get_ips yields None exactly when the `obj` field of the
response JSON is the sentinel string "No IP Record" or is absent or null; in
every other case the `obj` value is returned unchanged. -/
theorem c9_get_ips (body : List (String × PyJson)) :
    (ClientApi.get_ips_value body = PyJson.null ↔
      dictGet body ApiFields.OBJ = PyJson.str ApiFields.NO_IP_RECORD ∨
      dictGet body ApiFields.OBJ = PyJson.null)
    ∧ (dictGet body ApiFields.OBJ ≠ PyJson.str ApiFields.NO_IP_RECORD →
        ClientApi.get_ips_value body = dictGet body ApiFields.OBJ) := by
  constructor
  · cases hv : dictGet body ApiFields.OBJ with
    | str s =>
      by_cases hs : s = ApiFields.NO_IP_RECORD
      · subst hs
        simp [ClientApi.get_ips_value, hv, PyJson.eqString]
      · simp [ClientApi.get_ips_value, hv, PyJson.eqString, hs]
    | null => simp [ClientApi.get_ips_value, hv, PyJson.eqString]
    | bool b => simp [ClientApi.get_ips_value, hv, PyJson.eqString]
    | int n => simp [ClientApi.get_ips_value, hv, PyJson.eqString]
    | arr elems => simp [ClientApi.get_ips_value, hv, PyJson.eqString]
    | obj fields => simp [ClientApi.get_ips_value, hv, PyJson.eqString]
  · intro hne
    cases hv : dictGet body ApiFields.OBJ with
    | str s =>
      have hs : s ≠ ApiFields.NO_IP_RECORD := by
        intro hcontra
        exact hne (hv.trans (by rw [hcontra]))
      simp [ClientApi.get_ips_value, hv, PyJson.eqString, hs]
    | null => simp [ClientApi.get_ips_value, hv, PyJson.eqString]
    | bool b => simp [ClientApi.get_ips_value, hv, PyJson.eqString]
    | int n => simp [ClientApi.get_ips_value, hv, PyJson.eqString]
    | arr elems => simp [ClientApi.get_ips_value, hv, PyJson.eqString]
    | obj fields => simp [ClientApi.get_ips_value, hv, PyJson.eqString]

/-- Witness for C9 at concrete bodies: the sentinel maps to None, an IP
string is returned unchanged. -/
theorem c9_get_ips_witness :
    ClientApi.get_ips_value [("obj", PyJson.str "No IP Record")] = PyJson.null
    ∧ ClientApi.get_ips_value [("obj", PyJson.str "1.2.3.4")] = PyJson.str "1.2.3.4" :=
  ⟨(c9_get_ips [("obj", PyJson.str "No IP Record")]).1.mpr (Or.inl rfl),
   by
    have h := (c9_get_ips [("obj", PyJson.str "1.2.3.4")]).2
      (by
        intro hcontra
        simp [dictGet, ApiFields.OBJ, ApiFields.NO_IP_RECORD] at hcontra)
    exact h⟩

/-- C10: the claimed 9-key dict is never returned.  For every Inbound
object, to_json raises AttributeError: line 113 of inbound.py calls
model_dump_json on the Sniffing object, but sniffing.py defines Sniffing as a
plain class with only __init__ and to_json, so the attribute lookup fails.
The surrounding logic (the include filter followed by the update with the
three JSON-string entries) would yield exactly the nine claimed keys only if
the attribute existed, which the last conjunct records. -/
theorem c10_to_json_attribute_error (i : Inbound) :
    sniffingClassAttrs.contains "model_dump_json" = false
    ∧ i.to_json =
        ToJsonResult.attributeError "Sniffing object has no attribute model_dump_json"
    ∧ (dictUpdate (i.model_dump.filter (fun kv => inboundIncludeKeys.contains kv.fst))
        [(InboundFields.SETTINGS, PyJson.str i.settings.model_dump_json),
         (InboundFields.STREAM_SETTINGS, PyJson.str i.stream_settings.model_dump_json),
         (InboundFields.SNIFFING, PyJson.str i.sniffing.aliasDumpJson)]).map Prod.fst =
        ["enable", "port", "protocol", "listen", "remark", "expiryTime",
         "settings", "streamSettings", "sniffing"] := by
  exact ⟨rfl, rfl, rfl⟩
